import Mathlib

/-!
Shallow embedding of the PipeVision CAD ingestion, classification and
export pipeline (`app/processing/dwg_parser.py`, `app/processing/exporters.py`,
`app/processing/fbx_exporter.py`, `app/models/models.py`).

Conventions of the embedding:
* Python floats are modelled as exact rationals (`ℚ`) in the parser and the
  feature/tabular exporters, and as reals (`ℝ`) in the mesh generator, where
  the code takes square roots (`np.linalg.norm`).
* Python's truthiness-based fallback `x or d` on optional numbers/strings is
  modelled by `pyOr` / `pyOrStr` (`None`, `0.0` and `""` are falsy).
* Python dicts built by repeated assignment are modelled as association lists
  where the last binding for a key wins.
* File I/O, logging and subprocess execution are abstracted: a function that
  returns `True`/`False` in Python is modelled as a function returning the
  data it would have written together with that boolean, and the outcomes of
  external tools are inputs to the model.
-/

namespace PipeVision

/-- Python's `str.upper`, character-wise (the layer names and keywords the
code uppercases are ASCII, where this agrees with Python). -/
def strUpper (s : String) : String := ⟨s.toList.map Char.toUpper⟩

/-- Python's `needle in hay` on strings, on the character-list level:
contiguous-substring containment. -/
def strContains (hay needle : String) : Bool :=
  containsAux hay.toList needle.toList
where
  containsAux : List Char → List Char → Bool
    | hay, needle =>
      match hay with
      | [] => needle.isEmpty
      | _ :: t => needle.isPrefixOf hay || containsAux t needle

/-- Python `x or d` for an optional number: `None` and `0` both fall back
to the default (`0.0` is falsy in Python). -/
def pyOr (x : Option ℚ) (d : ℚ) : ℚ :=
  match x with
  | none => d
  | some v => if v = 0 then d else v

/-- Python `s or d` for an optional string: `None` and `""` both fall back
to the default (`""` is falsy in Python). -/
def pyOrStr (x : Option String) (d : String) : String :=
  match x with
  | none => d
  | some s => if s = "" then d else s

/-- Lookup in a Python dict modelled as an assoc list built by successive
assignments appended at the end: the last binding for a key wins. -/
def dictLookup (d : List (String × String)) (k : String) : Option String :=
  (d.reverse.find? fun p => p.1 = k).map Prod.snd

/-! ## `dwg_parser.py` — extraction and classification -/

/-- `DWGParser.ASSET_TYPE_KEYWORDS`: ordered keyword table (Python dicts
preserve insertion order, so iteration over `.items()` is this list order). -/
def ASSET_TYPE_KEYWORDS : List (String × List String) :=
  [ ("sewer",    ["sewer", "san", "sanitary", "ss", "swr"]),
    ("storm",    ["storm", "drain", "sd", "stm", "drainage"]),
    ("potable",  ["water", "potable", "wtr", "wm", "domestic"]),
    ("gas",      ["gas", "natural", "ng", "fuel"]),
    ("electric", ["electric", "elec", "power", "hv", "lv", "mv"]),
    ("telecom",  ["telecom", "telephone", "tel", "comm", "cable"]),
    ("fiber",    ["fiber", "fibre", "fo", "optical"]) ]

/-- One layer record as produced by `DWGParser._extract_layers`; only the
name is consulted by classification. -/
structure LayerRec where
  name : String
  color : Int := 7
  is_on : Bool := true
  is_frozen : Bool := false
  linetype : String := "Continuous"
deriving Repr, DecidableEq

/-- A 3-D point. -/
abbrev Pt3 := ℚ × ℚ × ℚ

/-- `ExtractedEntity` (the free-form `properties` bag, which no claim under
verification touches, carries the radius/angle attributes of circles and
arcs and the closed flag of polylines; it is modelled as the list of its
numeric entries). -/
structure ExtractedEntity where
  handle : String
  entity_type : String
  layer : String
  points : List Pt3
  props_numeric : List (String × ℚ) := []
  suggested_type : Option String := none
  has_depth : Bool := false
  depth_values : List ℚ := []
deriving Repr, DecidableEq

/-- Geometry of a raw modelspace entity, the type-directed cases of
`DWGParser._extract_single_entity`. `unsupported` stands for every other
`dxftype`. 2-D lightweight polylines carry (x, y) vertices; 3-D polylines
carry full vertices. -/
inductive RawGeom where
  | line (startP endP : Pt3)
  | lwpolyline (pts : List (ℚ × ℚ)) (closed : Bool)
  | polyline3d (pts : List Pt3) (closed : Bool)
  | circle (center : Pt3) (radius : ℚ)
  | arc (center : Pt3) (radius startAngle endAngle : ℚ)
  | unsupported
deriving Repr, DecidableEq

/-- A raw modelspace entity before extraction. -/
structure RawEntity where
  handle : String
  layer : String
  geom : RawGeom
deriving Repr, DecidableEq

/-- The shared tail of `DWGParser._extract_single_entity`: drop entities
with no points, collect the non-zero z values (`z_values`), set `has_depth`
iff any exist, and build the record with `suggested_type` initially absent. -/
def entityRecord (e : RawEntity) (entity_type : String) (points : List Pt3)
    (props : List (String × ℚ)) : Option ExtractedEntity :=
  if points.isEmpty then none
  else
    let z_values := (points.map fun p => p.2.2).filter fun z => z ≠ 0
    some { handle := e.handle, entity_type := entity_type, layer := e.layer,
           points := points, props_numeric := props,
           has_depth := !z_values.isEmpty, depth_values := z_values }

/-- `DWGParser._extract_single_entity`: type-directed extraction; unsupported
kinds yield no record. -/
def extract_single_entity (e : RawEntity) : Option ExtractedEntity :=
  match e.geom with
  | .line s t => entityRecord e "LINE" [s, t] []
  | .lwpolyline pts closed =>
      entityRecord e "LWPOLYLINE" (pts.map fun p => (p.1, p.2, 0))
        [("closed", if closed then 1 else 0)]
  | .polyline3d pts closed =>
      entityRecord e "POLYLINE" pts [("closed", if closed then 1 else 0)]
  | .circle c r => entityRecord e "CIRCLE" [c] [("radius", r)]
  | .arc c r a0 a1 =>
      entityRecord e "ARC" [c] [("radius", r), ("start_angle", a0), ("end_angle", a1)]
  | .unsupported => none

/-- `DWGParser._extract_entities`: keep the entities extraction succeeds on. -/
def extract_entities (raws : List RawEntity) : List ExtractedEntity :=
  raws.filterMap extract_single_entity

/-- `DWGParser._check_depth`: drawing-level depth flag. -/
def check_depth (entities : List ExtractedEntity) : Bool :=
  entities.any fun e =>
    e.has_depth && !e.depth_values.isEmpty &&
      e.depth_values.any fun z => |z| > 1/1000

/-- The inner loop of `DWGParser._classify_entities`: first keyword-table
entry (in table order) one of whose keywords occurs, case-insensitively, in
the layer name. -/
def classifyLayer (layer_name : String) : Option String :=
  (ASSET_TYPE_KEYWORDS.find? fun entry =>
      entry.2.any fun kw => strContains (strUpper layer_name) (strUpper kw)).map
    Prod.fst

/-- The `layer_types` dict of `DWGParser._classify_entities`, built by
iterating the layer table in order and assigning the first matching type. -/
def layer_types (layers : List LayerRec) : List (String × String) :=
  layers.foldl
    (fun d l =>
      match classifyLayer l.name with
      | some t => d ++ [(l.name, t)]
      | none => d)
    []

/-- `DWGParser._classify_entities`: each entity whose layer name has an entry
in `layer_types` gets that entry as its `suggested_type`. -/
def classify_entities (entities : List ExtractedEntity)
    (layers : List LayerRec) : List ExtractedEntity :=
  let lt := layer_types layers
  entities.map fun e =>
    match dictLookup lt e.layer with
    | some t => { e with suggested_type := some t }
    | none => e

/-- `DWGParser._determine_missing_fields`: builds the missing list from the
drawing-level flags and from whether any entity carries a `suggested_type`. -/
def determine_missing_fields (has_depth has_crs has_rotation : Bool)
    (entities : List ExtractedEntity) : List String :=
  (if !has_depth then ["depth"] else []) ++
  (if !has_crs then ["crs"] else []) ++
  (if !has_rotation then ["rotation"] else []) ++
  (if !(entities.any fun e => e.suggested_type.isSome) then ["labels"] else [])

/-- The entity-and-metadata slice of `DWGParser.parse` (lines 140–163), in
the source's statement order: extract entities, compute the drawing-level
depth flag, determine the missing fields, and only then classify the
entities. Returns the final `(missing_fields, entities)` of the result. -/
def parseCore (layers : List LayerRec) (raws : List RawEntity)
    (has_crs has_rotation : Bool) : List String × List ExtractedEntity :=
  let entities := extract_entities raws
  let hd := check_depth entities
  let missing := determine_missing_fields hd has_crs has_rotation entities
  let entities' := classify_entities entities layers
  (missing, entities')

/-! ## `models.py` — the export-facing asset record -/

/-- `AssetType` enumeration. -/
inductive AssetType where
  | sewer | storm | potable | gas | electric | telecom | fiber | unknown
deriving Repr, DecidableEq

/-- The `.value` of an `AssetType` enum member. -/
def AssetType.value : AssetType → String
  | .sewer => "sewer"
  | .storm => "storm"
  | .potable => "potable"
  | .gas => "gas"
  | .electric => "electric"
  | .telecom => "telecom"
  | .fiber => "fiber"
  | .unknown => "unknown"

/-- `ASSET_TYPE_COLORS` from `models.py`. -/
def ASSET_TYPE_COLORS : List (AssetType × String) :=
  [ (.sewer, "#8B4513"), (.storm, "#4169E1"), (.potable, "#00CED1"),
    (.gas, "#FFD700"), (.electric, "#FF4500"), (.telecom, "#9370DB"),
    (.fiber, "#32CD32"), (.unknown, "#808080") ]

/-- `ASSET_TYPE_COLORS.get(asset.asset_type, "#808080")`: a `None` key is not
in the dict, so it takes the default. -/
def assetColor (t : Option AssetType) : String :=
  match t with
  | none => "#808080"
  | some t => ((ASSET_TYPE_COLORS.find? fun p => p.1 = t).map Prod.snd).getD "#808080"

/-- The slice of the persisted `Asset` record the export adapters read.
`id` is the stringified UUID. `coordinates` models the optional stored
coordinate list consulted first by `_extract_coordinates` (`[]` = absent or
empty, both falsy); `props_points` models `original_properties["points"]`
when that key is present. -/
structure Asset where
  id : String := "a"
  asset_type : Option AssetType := none
  label : Option String := none
  layer_name : Option String := none
  depth_start : Option ℚ := none
  depth_end : Option ℚ := none
  depth_unit : Option String := none
  diameter : Option ℚ := none
  diameter_unit : Option String := none
  material : Option String := none
  color : Option String := none
  coordinates : List (List ℚ) := []
  props_points : Option (List (List ℚ)) := none
deriving Repr, DecidableEq

/-! ## `exporters.py` — options, coordinate handling, GeoJSON, CSV -/

/-- `ExportOptions` with its source defaults (`1.5` m depth, `0.15` m
diameter, 8 decimal places). -/
structure ExportOptions where
  source_crs : String := "EPSG:4326"
  target_crs : String := "EPSG:4326"
  include_properties : Bool := true
  include_depth : Bool := true
  default_depth : ℚ := 3/2
  default_diameter : ℚ := 3/20
  precision : Nat := 8
deriving Repr, DecidableEq

/-- Python's `round` on a number: round half to even (banker's rounding). -/
def roundHalfEven (q : ℚ) : ℤ :=
  let f := ⌊q⌋
  let r := q - f
  if r < 1/2 then f
  else if 1/2 < r then f + 1
  else if f % 2 = 0 then f else f + 1

/-- Python's `round(x, p)` to `p` decimal places. -/
def roundDec (p : Nat) (q : ℚ) : ℚ :=
  (roundHalfEven (q * 10 ^ p) : ℚ) / 10 ^ p

/-- `_extract_coordinates` (identical in the GeoJSON, CSV, glTF and FBX
adapters): the stored coordinate list if non-empty (truthy), else the
`points` entry of `original_properties`, else `[]`. -/
def extract_coordinates (a : Asset) : List (List ℚ) :=
  if !a.coordinates.isEmpty then a.coordinates
  else
    match a.props_points with
    | some ps => ps
    | none => []

/-- `GeoJSONExporter._init_transformer`: a transformer is built from the
external geodetic library only when source and target CRS differ; `lib`
stands for `pyproj.Transformer.from_crs(...).transform`. -/
def init_transformer (opts : ExportOptions)
    (lib : String → String → ℚ × ℚ → ℚ × ℚ) : Option (ℚ × ℚ → ℚ × ℚ) :=
  if opts.source_crs ≠ opts.target_crs then some (lib opts.source_crs opts.target_crs)
  else none

/-- `GeoJSONExporter._transform_coord`: reprojects x/y when the coordinate
has at least two components, passes z through (0 when absent), and returns
shorter coordinates unchanged. -/
def transform_coord (t : ℚ × ℚ → ℚ × ℚ) (c : List ℚ) : List ℚ :=
  match c with
  | x :: y :: rest =>
      let p := t (x, y)
      [p.1, p.2, match rest with | z :: _ => z | [] => 0]
  | _ => c

/-- The coordinate-rounding list comprehension of `_asset_to_feature`:
`[round(c[0]), round(c[1]), round(c[2]) if len(c) > 2 else 0]`. A coordinate
with fewer than two components raises `IndexError` there, which the
enclosing handler turns into dropping the asset; that is the `none` case. -/
def round_coord (p : Nat) (c : List ℚ) : Option (List ℚ) :=
  match c with
  | x :: y :: rest =>
      some [roundDec p x, roundDec p y,
            match rest with | z :: _ => roundDec p z | [] => 0]
  | _ => none

/-- The whole rounding comprehension: left to right, aborting the asset at
the first coordinate that raises. -/
def roundAll (p : Nat) : List (List ℚ) → Option (List (List ℚ))
  | [] => some []
  | c :: cs =>
    match round_coord p c, roundAll p cs with
    | some c', some cs' => some (c' :: cs')
    | _, _ => none

/-- GeoJSON geometry: `Point` for a single coordinate, `LineString` else. -/
inductive GeoGeometry where
  | point (c : List ℚ)
  | lineString (cs : List (List ℚ))
deriving Repr, DecidableEq

/-- The properties dict built by `_asset_to_feature`; the depth triple is
present only under `include_depth`, the diameter/material triple only under
`include_properties` (absent keys are `none`). -/
structure FeatureProps where
  id : String
  type : String
  label : String
  layer : String
  color : String
  depth_start : Option ℚ
  depth_end : Option ℚ
  depth_unit : Option String
  diameter : Option ℚ
  diameter_unit : Option String
  material : Option String
deriving Repr, DecidableEq

/-- One GeoJSON feature. -/
structure Feature where
  geometry : GeoGeometry
  properties : FeatureProps
deriving Repr, DecidableEq

/-- The properties-building tail of `_asset_to_feature`. -/
def feature_properties (opts : ExportOptions) (a : Asset) : FeatureProps :=
  { id := a.id,
    type := match a.asset_type with | some t => t.value | none => "unknown",
    label := pyOrStr a.label "",
    layer := pyOrStr a.layer_name "",
    color := pyOrStr a.color (assetColor a.asset_type),
    depth_start := if opts.include_depth then some (pyOr a.depth_start opts.default_depth) else none,
    depth_end := if opts.include_depth then some (pyOr a.depth_end opts.default_depth) else none,
    depth_unit := if opts.include_depth then some (pyOrStr a.depth_unit "meters") else none,
    diameter := if opts.include_properties then some (pyOr a.diameter opts.default_diameter) else none,
    diameter_unit := if opts.include_properties then some (pyOrStr a.diameter_unit "meters") else none,
    material := if opts.include_properties then some (pyOrStr a.material "") else none }

/-- The conditional reprojection step of `_asset_to_feature`
(`if self.transformer: coords = [self._transform_coord(c) for c in coords]`). -/
def transformed_coords (tr : Option (ℚ × ℚ → ℚ × ℚ))
    (coords : List (List ℚ)) : List (List ℚ) :=
  match tr with
  | some t => coords.map (transform_coord t)
  | none => coords

/-- What one input coordinate becomes in the output: optional transform,
then rounding. -/
def processCoord (tr : Option (ℚ × ℚ → ℚ × ℚ)) (p : Nat) (c : List ℚ) :
    Option (List ℚ) :=
  round_coord p
    (match tr with
     | some t => transform_coord t c
     | none => c)

/-- `GeoJSONExporter._asset_to_feature`: extract coordinates (empty list
drops the asset), optionally transform, round, and wrap as Point/LineString
with the properties dict. -/
def asset_to_feature (tr : Option (ℚ × ℚ → ℚ × ℚ)) (opts : ExportOptions)
    (a : Asset) : Option Feature :=
  let coords := extract_coordinates a
  if coords.isEmpty then none
  else
    match roundAll opts.precision (transformed_coords tr coords) with
    | none => none
    | some cs =>
        some { geometry := match cs with
                 | [c] => .point c
                 | _ => .lineString cs,
               properties := feature_properties opts a }

/-- The coordinate list carried by a feature's geometry. -/
def featureCoords (f : Feature) : List (List ℚ) :=
  match f.geometry with
  | .point c => [c]
  | .lineString cs => cs

/-- `GeoJSONExporter.export`: the features of the emitted collection. -/
def geojson_features (opts : ExportOptions)
    (lib : String → String → ℚ × ℚ → ℚ × ℚ) (assets : List Asset) : List Feature :=
  assets.filterMap (asset_to_feature (init_transformer opts lib) opts)

/-- One CSV cell: Python writes either a number or a string per column. -/
inductive Cell where
  | num (q : ℚ)
  | str (s : String)
deriving Repr, DecidableEq

/-- The fixed CSV header row of `CSVExporter.export`. -/
def csvHeader : List Cell :=
  [.str "id", .str "type", .str "label", .str "layer",
   .str "start_lat", .str "start_lon", .str "start_depth",
   .str "end_lat", .str "end_lon", .str "end_depth",
   .str "diameter", .str "material", .str "color"]

/-- The per-asset loop body of `CSVExporter.export`: assets with no
coordinates are skipped (`continue`); otherwise start is the first and end
the last coordinate (reusing start when there is only one); latitude is
written before longitude; depth falls back from the coordinate's z to the
stored depth attribute to 0; diameter/material/color fall back to `""`. -/
def csv_row (a : Asset) : Option (List Cell) :=
  let coords := extract_coordinates a
  if coords.isEmpty then none
  else
    let start := coords.headD [0, 0, 0]
    let stop := if coords.length > 1 then coords.getLastD start else start
    some
      [ .str a.id,
        .str (match a.asset_type with | some t => t.value | none => "unknown"),
        .str (pyOrStr a.label ""),
        .str (pyOrStr a.layer_name ""),
        .num (if start.length > 1 then start.getD 1 0 else 0),
        .num (if start.length > 0 then start.getD 0 0 else 0),
        .num (if start.length > 2 then start.getD 2 0 else pyOr a.depth_start 0),
        .num (if stop.length > 1 then stop.getD 1 0 else 0),
        .num (if stop.length > 0 then stop.getD 0 0 else 0),
        .num (if stop.length > 2 then stop.getD 2 0 else pyOr a.depth_end 0),
        (match a.diameter with
         | some d => if d = 0 then .str "" else .num d
         | none => .str ""),
        .str (pyOrStr a.material ""),
        .str (pyOrStr a.color "") ]

/-- `CSVExporter.export`: header row followed by one row per asset that has
coordinates. -/
def csv_rows (assets : List Asset) : List (List Cell) :=
  csvHeader :: assets.filterMap csv_row

/-! ## `exporters.py` / `fbx_exporter.py` — solid generation (`ℝ`, since the
code takes square roots via `np.linalg.norm`) -/

/-- A 3-vector of reals. -/
abbrev V3 := ℝ × ℝ × ℝ

/-- Componentwise difference `a - b`. -/
def vsub (a b : V3) : V3 := (a.1 - b.1, a.2.1 - b.2.1, a.2.2 - b.2.2)

/-- Componentwise sum. -/
def vadd (a b : V3) : V3 := (a.1 + b.1, a.2.1 + b.2.1, a.2.2 + b.2.2)

/-- Scalar multiple. -/
def smul (c : ℝ) (v : V3) : V3 := (c * v.1, c * v.2.1, c * v.2.2)

/-- Dot product. -/
def dot3 (a b : V3) : ℝ := a.1 * b.1 + a.2.1 * b.2.1 + a.2.2 * b.2.2

/-- Cross product, as `np.cross`. -/
def cross3 (a b : V3) : V3 :=
  (a.2.1 * b.2.2 - a.2.2 * b.2.1,
   a.2.2 * b.1 - a.1 * b.2.2,
   a.1 * b.2.1 - a.2.1 * b.1)

/-- Euclidean norm (`np.linalg.norm`). -/
noncomputable def norm3 (v : V3) : ℝ := Real.sqrt (dot3 v v)

/-- `np.clip(x, lo, hi)`. -/
noncomputable def clip (x lo hi : ℝ) : ℝ := min (max x lo) hi

/-- Hex digit value, as `int(_, 16)` digit-wise (the colors the code feeds
in are valid hex; invalid digits, which would raise in Python and drop the
asset, are mapped to 0). -/
def hexVal (c : Char) : ℕ :=
  if c.isDigit then c.toNat - '0'.toNat
  else if 'a' ≤ c && c ≤ 'f' then c.toNat - 'a'.toNat + 10
  else if 'A' ≤ c && c ≤ 'F' then c.toNat - 'A'.toNat + 10
  else 0

/-- Two-digit hex byte starting at index `i`. -/
def hexPair (s : List Char) (i : ℕ) : ℕ :=
  16 * hexVal (s.getD i '0') + hexVal (s.getD (i + 1) '0')

/-- `_hex_to_rgba`: strip leading `#`, parse three bytes, alpha 255. -/
def hex_to_rgba (s : String) : List ℕ :=
  let t := s.toList.dropWhile fun c => c = '#'
  [hexPair t 0, hexPair t 2, hexPair t 4, 255]

/-- The data `trimesh.creation.cylinder` + the applied transforms determine:
an upright cylinder of the given radius/height, optionally rotated about an
axis by an angle, then translated to the segment midpoint, with a uniform
vertex color assigned by the caller. -/
structure CylinderDesc where
  radius : ℝ
  height : ℝ
  sections : ℕ
  rotation : Option (V3 × ℝ)
  midpoint : V3
  vertex_color : List ℕ := []

/-- `_create_cylinder` (GLTF uses `sections = 8`, the FBX trimesh fallback
`sections = 12`): degenerate segments shorter than 0.001 yield no cylinder;
the rotation aligning the z axis with the segment direction is applied only
when the cross-product norm exceeds 0.001, with angle
`arccos(clip(z · d, -1, 1))`. -/
noncomputable def create_cylinder (startP endP : V3) (radius : ℝ)
    (sections : ℕ) : Option CylinderDesc :=
  let direction := vsub endP startP
  let length := norm3 direction
  if length < 1/1000 then none
  else
    let dn := smul (1 / length) direction
    let zAxis : V3 := (0, 0, 1)
    let raxis := cross3 zAxis dn
    let n := norm3 raxis
    some { radius := radius, height := length, sections := sections,
           rotation :=
             if n > 1/1000 then
               some (smul (1 / n) raxis, Real.arccos (clip (dot3 zAxis dn) (-1) 1))
             else none,
           midpoint := smul (1/2) (vadd startP endP) }

/-- The rotation `_create_cylinder` applies, named for the lemmas below: the
axis/angle pair when the cross-product norm exceeds 0.001, `none` when the
direction is already (anti)parallel to the z axis. -/
noncomputable def cylRotation (startP endP : V3) : Option (V3 × ℝ) :=
  let direction := vsub endP startP
  let dn := smul (1 / norm3 direction) direction
  let raxis := cross3 (0, 0, 1) dn
  let n := norm3 raxis
  if n > 1/1000 then
    some (smul (1 / n) raxis, Real.arccos (clip (dot3 (0, 0, 1) dn) (-1) 1))
  else none

/-- The per-endpoint preparation in `_asset_to_mesh`: a 2-component
coordinate gets `-(depth)` appended as z ("below ground"); a 3-component one
is used as is; any other shape makes the later numpy vector arithmetic
raise, aborting the whole asset (`none`). -/
def seg_point (depth : ℚ) (c : List ℚ) : Option V3 :=
  match c with
  | [x, y] => some ((x : ℝ), (y : ℝ), -(depth : ℝ))
  | [x, y, z] => some ((x : ℝ), (y : ℝ), (z : ℝ))
  | _ => none

/-- Consecutive point pairs `(coords[i], coords[i+1])`. -/
def consecPairs (l : List α) : List (α × α) := l.zip l.tail

/-- One iteration of the segment loop of `_asset_to_mesh`: `none` is the
exception path (malformed coordinate) aborting the asset, `some none` a
degenerate segment skipped without error, `some (some c)` a built cylinder. -/
noncomputable def seg_cylinder (opts : ExportOptions) (a : Asset) (radius : ℝ)
    (sections : ℕ) (pr : List ℚ × List ℚ) : Option (Option CylinderDesc) :=
  match seg_point (pyOr a.depth_start opts.default_depth) pr.1,
        seg_point (pyOr a.depth_end opts.default_depth) pr.2 with
  | some s, some e => some (create_cylinder s e radius sections)
  | _, _ => none

/-- Uniform per-vertex color assignment (`segment.visual.vertex_colors = color`). -/
def setColor (color : List ℕ) (c : CylinderDesc) : CylinderDesc :=
  { c with vertex_color := color }

/-- The segment loop: collect built cylinders in order, skip degenerate
segments, and abort the asset on the exception path. -/
def build_segments (f : α → Option (Option CylinderDesc)) :
    List α → Option (List CylinderDesc)
  | [] => some []
  | x :: xs =>
    match f x with
    | none => none
    | some none => build_segments f xs
    | some (some c) => (build_segments f xs).map fun cs => c :: cs

/-- `_asset_to_mesh`: fewer than two coordinates yields no mesh; radius is
`(diameter or default)/2`; each built segment is colored; an asset whose
segment list comes out empty contributes nothing. -/
noncomputable def asset_to_mesh (sections : ℕ) (opts : ExportOptions)
    (a : Asset) : Option (List CylinderDesc) :=
  let coords := extract_coordinates a
  if coords.length < 2 then none
  else
    let radius := ((pyOr a.diameter opts.default_diameter : ℚ) : ℝ) / 2
    let color := hex_to_rgba (pyOrStr a.color (assetColor a.asset_type))
    match build_segments
        (fun pr => (seg_cylinder opts a radius sections pr).map (Option.map (setColor color)))
        (consecPairs coords) with
    | none => none
    | some segs => if segs.isEmpty then none else some segs

/-- The per-asset meshes of `GLTFExporter.export`. -/
noncomputable def gltf_meshes (opts : ExportOptions) (assets : List Asset) :
    List (List CylinderDesc) :=
  assets.filterMap (asset_to_mesh 8 opts)

/-- All solids written by one glTF export run (the concatenation across
assets). -/
noncomputable def gltf_solids (opts : ExportOptions) (assets : List Asset) :
    List CylinderDesc :=
  (gltf_meshes opts assets).flatten

/-- The success flag of `GLTFExporter.export`: fails exactly when no meshes
were generated, writes the combined mesh otherwise. -/
noncomputable def gltf_export (opts : ExportOptions) (assets : List Asset) : Bool :=
  !(gltf_meshes opts assets).isEmpty

/-! ## `fbx_exporter.py` — external-tool-mediated export with fallback -/

/-- Outcome of the headless Blender subprocess run. -/
inductive BlenderOutcome where
  | ok | timeout | nonzeroExit
deriving Repr, DecidableEq

/-- The external facts an FBX export run depends on: whether `_find_blender`
located the tool, how the subprocess run ends, and whether trimesh's
FBX-format write succeeds (raises otherwise). -/
structure FbxEnv where
  blender_found : Bool
  blender_outcome : BlenderOutcome
  fbx_write_ok : Bool
deriving Repr, DecidableEq

/-- Observable outcome of `FBXExporter.export`: the returned success flag,
whether the trimesh direct fallback (`_export_fallback`) ran, and whether
the degraded OBJ file at the alternate extension was written. -/
structure FbxRunResult where
  success : Bool
  used_direct_fallback : Bool
  wrote_obj : Bool
deriving Repr, DecidableEq

/-- The per-asset payload serialized for the Blender script by
`_export_with_blender`; assets without coordinates are skipped. -/
structure BlenderAssetData where
  coordinates : List (List ℚ)
  type : String
  color : String
  diameter : ℚ
  depth_start : ℚ
  depth_end : ℚ
  label : String
deriving Repr, DecidableEq

/-- Serialization of one asset for the Blender data file. -/
def blender_asset_data (opts : ExportOptions) (a : Asset) : Option BlenderAssetData :=
  let coords := extract_coordinates a
  if coords.isEmpty then none
  else
    some { coordinates := coords,
           type := match a.asset_type with | some t => t.value | none => "unknown",
           color := pyOrStr a.color (assetColor a.asset_type),
           diameter := pyOr a.diameter opts.default_diameter,
           depth_start := pyOr a.depth_start opts.default_depth,
           depth_end := pyOr a.depth_end opts.default_depth,
           label := pyOrStr a.label ("pipe_" ++ a.id) }

/-- `_export_with_blender`: fails when no asset serializes; otherwise
succeeds exactly when the subprocess exits zero within the timeout. On
timeout and on nonzero exit it returns failure directly — the trimesh
fallback is never invoked on this path. -/
def export_with_blender (env : FbxEnv) (opts : ExportOptions)
    (assets : List Asset) : FbxRunResult :=
  let data := assets.filterMap (blender_asset_data opts)
  if data.isEmpty then ⟨false, false, false⟩
  else
    match env.blender_outcome with
    | .ok => ⟨true, false, false⟩
    | .timeout => ⟨false, false, false⟩
    | .nonzeroExit => ⟨false, false, false⟩

/-- `_export_fallback`: trimesh direct export; fails when no meshes were
generated; if the FBX-format write raises, writes OBJ under the alternate
extension and still reports success. -/
noncomputable def export_fallback (env : FbxEnv) (opts : ExportOptions)
    (assets : List Asset) : FbxRunResult :=
  let meshes := assets.filterMap (asset_to_mesh 12 opts)
  if meshes.isEmpty then ⟨false, true, false⟩
  else if env.fbx_write_ok then ⟨true, true, false⟩
  else ⟨true, true, true⟩

/-- `FBXExporter.export`: dispatches on whether Blender was found at
construction time; only tool-not-found routes to the direct fallback. -/
noncomputable def fbx_export (env : FbxEnv) (opts : ExportOptions)
    (assets : List Asset) : FbxRunResult :=
  if env.blender_found then export_with_blender env opts assets
  else export_fallback env opts assets

/-! ## Concrete inputs used by witnesses and counterexamples -/

/-- A layer table containing the ambiguous layer of §8 of the spec. -/
def laySD : LayerRec := { name := "STORM_DRAIN_SS" }

/-- An extracted entity sitting on that layer. -/
def entSD : ExtractedEntity :=
  { handle := "h1", entity_type := "LINE", layer := "STORM_DRAIN_SS",
    points := [(0, 0, 0), (1, 1, 0)] }

/-- A layer whose name matches the sewer keywords. -/
def demoLayers : List LayerRec := [{ name := "SEWER_MAIN" }]

/-- A line entity on that sewer layer. -/
def demoRaws : List RawEntity :=
  [{ handle := "e1", layer := "SEWER_MAIN", geom := .line (0, 0, 0) (1, 1, 0) }]

/-- A line entity whose z values are all strictly between 0 and the depth
epsilon 0.001. -/
def rawEps : RawEntity :=
  { handle := "h", layer := "L", geom := .line (0, 0, 1/2000) (1, 0, 1/2000) }

/-- A line entity whose only non-zero z value is exactly the epsilon. -/
def rawBoundary : RawEntity :=
  { handle := "hb", layer := "L", geom := .line (0, 0, 1/1000) (1, 0, 0) }

/-- A line entity with a clearly deep point. -/
def rawDeep : RawEntity :=
  { handle := "hd", layer := "L", geom := .line (0, 0, 2) (1, 0, 0) }

/-- An asset with zero-valued depth and diameter attributes and a 2-point
planar geometry. -/
def a9 : Asset :=
  { id := "a9", depth_start := some 0, diameter := some 0,
    coordinates := [[1, 2], [3, 4]] }

/-- An asset with a single 2-component coordinate. -/
def a10 : Asset := { id := "a10", coordinates := [[1, 2]] }

/-- An asset with one 2-component and one 3-component coordinate. -/
def aC6 : Asset := { id := "a6", coordinates := [[1, 2], [3, 4, 5]] }

/-- The expected feature for `a10` under default options and equal CRS. -/
def f10 : Feature :=
  { geometry := .point [1, 2, 0], properties := feature_properties {} a10 }

/-- An identity stand-in for the geodetic transform library. -/
def libW : String → String → ℚ × ℚ → ℚ × ℚ := fun _ _ p => p

/-- An asset holding a vertical 2-point, 10-unit segment of diameter 0.3. -/
def aC7 : Asset := { id := "a7", diameter := some (3/10), coordinates := [[0, 0, 0], [0, 0, 10]] }

/-- An asset whose only segment is degenerate (both endpoints equal). -/
def aDeg : Asset := { id := "adeg", coordinates := [[0, 0, 0], [0, 0, 0]] }

/-- Blender found but the subprocess times out. -/
def envTimeout : FbxEnv :=
  { blender_found := true, blender_outcome := .timeout, fbx_write_ok := true }

/-- Blender found but the subprocess exits nonzero. -/
def envNonzero : FbxEnv :=
  { blender_found := true, blender_outcome := .nonzeroExit, fbx_write_ok := true }

/-- Blender missing and the trimesh FBX writer unavailable. -/
def envNoTool : FbxEnv :=
  { blender_found := false, blender_outcome := .ok, fbx_write_ok := false }

/-! ## Helper lemmas -/

/-- `layer_types` is the in-order collection of the classifiable layers. -/
theorem layer_types_eq_filterMap (layers : List LayerRec) :
    layer_types layers =
      layers.filterMap fun l => (classifyLayer l.name).map fun t => (l.name, t) := by
  suffices h : ∀ acc : List (String × String),
      layers.foldl
        (fun d l =>
          match classifyLayer l.name with
          | some t => d ++ [(l.name, t)]
          | none => d) acc
        = acc ++ layers.filterMap fun l => (classifyLayer l.name).map fun t => (l.name, t) by
    simpa [layer_types] using h []
  induction layers with
  | nil => intro acc; simp
  | cons l ls ih =>
      intro acc
      cases h : classifyLayer l.name with
      | none => simp [List.foldl_cons, h, ih]
      | some t => simp [List.foldl_cons, h, ih]

/-- Looking up a layer name present in the layer table returns the type the
keyword table assigns to that name. -/
theorem dictLookup_layer_types {layers : List LayerRec} {N t : String}
    (h : ∃ l ∈ layers, l.name = N) (ht : classifyLayer N = some t) :
    dictLookup (layer_types layers) N = some t := by
  obtain ⟨l, hl, hname⟩ := h
  have hmem : (N, t) ∈ layer_types layers := by
    rw [layer_types_eq_filterMap]
    exact List.mem_filterMap.2 ⟨l, hl, by rw [hname, ht]; rfl⟩
  have hval : ∀ p ∈ layer_types layers, p.1 = N → p.2 = t := by
    intro p hp hp1
    rw [layer_types_eq_filterMap] at hp
    obtain ⟨l', _, hl'⟩ := List.mem_filterMap.1 hp
    cases hcl : classifyLayer l'.name with
    | none => rw [hcl] at hl'; cases hl'
    | some t' =>
        rw [hcl] at hl'
        cases hl'
        simp only at hp1
        rw [hp1] at hcl
        rw [hcl] at ht
        cases ht
        rfl
  unfold dictLookup
  have hsome : ((layer_types layers).reverse.find? fun p => p.1 = N).isSome := by
    rw [List.find?_isSome]
    exact ⟨(N, t), List.mem_reverse.2 hmem, by simp⟩
  obtain ⟨q, hq⟩ := Option.isSome_iff_exists.1 hsome
  have hq1 : q.1 = N := by simpa using List.find?_some hq
  have hqmem : q ∈ layer_types layers := List.mem_reverse.1 (List.mem_of_find?_eq_some hq)
  rw [hq]
  simp [hval q hqmem hq1]

/-- A record built by `entityRecord` has non-empty points, no suggested
type yet, and the documented depth fields. -/
theorem entityRecord_eq {r : RawEntity} {ty : String} {pts : List Pt3}
    {props : List (String × ℚ)} {e : ExtractedEntity}
    (h : entityRecord r ty pts props = some e) :
    pts.isEmpty = false ∧
      e = { handle := r.handle, entity_type := ty, layer := r.layer,
            points := pts, props_numeric := props,
            has_depth := !((pts.map fun p => p.2.2).filter fun z => z ≠ 0).isEmpty,
            depth_values := (pts.map fun p => p.2.2).filter fun z => z ≠ 0 } := by
  unfold entityRecord at h
  split at h
  · cases h
  · next hne =>
      refine ⟨by simpa using hne, ?_⟩
      injection h with h
      exact h.symm

/-- Every successful extraction goes through `entityRecord`. -/
theorem extract_single_entity_record {r : RawEntity} {e : ExtractedEntity}
    (h : extract_single_entity r = some e) :
    ∃ ty pts props, entityRecord r ty pts props = some e := by
  rcases r with ⟨hh, ll, g⟩
  cases g <;> simp only [extract_single_entity] at h
  case line s t => exact ⟨_, _, _, h⟩
  case lwpolyline pts closed => exact ⟨_, _, _, h⟩
  case polyline3d pts closed => exact ⟨_, _, _, h⟩
  case circle c rad => exact ⟨_, _, _, h⟩
  case arc c rad a0 a1 => exact ⟨_, _, _, h⟩
  case unsupported => cases h

/-- Freshly extracted entities carry no suggested type. -/
theorem extract_single_entity_suggested_none {r : RawEntity} {e : ExtractedEntity}
    (h : extract_single_entity r = some e) : e.suggested_type = none := by
  obtain ⟨ty, pts, props, hE⟩ := extract_single_entity_record h
  obtain ⟨-, rfl⟩ := entityRecord_eq hE
  rfl

/-- The non-zero z values of an extracted entity contain one above the
epsilon iff some point of the entity does. -/
theorem extracted_depth_cond {r : RawEntity} {e : ExtractedEntity}
    (h : extract_single_entity r = some e) :
    (e.has_depth && !e.depth_values.isEmpty &&
        e.depth_values.any fun z => |z| > 1/1000) = true ↔
      ∃ p ∈ e.points, |p.2.2| > 1/1000 := by
  obtain ⟨ty, pts, props, hE⟩ := extract_single_entity_record h
  obtain ⟨-, rfl⟩ := entityRecord_eq hE
  simp only [Bool.and_eq_true, List.any_eq_true, decide_eq_true_eq]
  constructor
  · rintro ⟨-, z, hz, hzgt⟩
    rw [List.mem_filter] at hz
    obtain ⟨hzm, -⟩ := hz
    rw [List.mem_map] at hzm
    obtain ⟨p, hp, rfl⟩ := hzm
    exact ⟨p, hp, hzgt⟩
  · rintro ⟨p, hp, hgt⟩
    have hz0 : p.2.2 ≠ 0 := by
      intro h0
      rw [h0] at hgt
      norm_num at hgt
    have hmem : p.2.2 ∈ (pts.map fun p => p.2.2).filter fun z => z ≠ 0 :=
      List.mem_filter.2 ⟨List.mem_map.2 ⟨p, hp, rfl⟩, by simpa using hz0⟩
    have hne : ((pts.map fun p => p.2.2).filter fun z => z ≠ 0) ≠ [] :=
      List.ne_nil_of_mem hmem
    refine ⟨⟨?_, ?_⟩, p.2.2, hmem, hgt⟩
    · simpa [List.isEmpty_iff] using hne
    · simpa [List.isEmpty_iff] using hne

/-- An extracted entity's point-level depth flag records the presence of a
non-zero z value. -/
theorem extracted_has_depth_eq {r : RawEntity} {e : ExtractedEntity}
    (h : extract_single_entity r = some e) :
    (e.has_depth = true ↔ ∃ p ∈ e.points, p.2.2 ≠ 0) := by
  obtain ⟨ty, pts, props, hE⟩ := extract_single_entity_record h
  obtain ⟨-, rfl⟩ := entityRecord_eq hE
  simp only [Bool.not_eq_true', List.isEmpty_eq_false]
  constructor
  · intro hne
    obtain ⟨z, hz⟩ := List.exists_mem_of_ne_nil _ hne
    rw [List.mem_filter] at hz
    obtain ⟨hzm, hz0⟩ := hz
    rw [List.mem_map] at hzm
    obtain ⟨p, hp, rfl⟩ := hzm
    exact ⟨p, hp, by simpa using hz0⟩
  · rintro ⟨p, hp, hp0⟩
    have hmem : p.2.2 ∈ (pts.map fun p => p.2.2).filter fun z => z ≠ 0 :=
      List.mem_filter.2 ⟨List.mem_map.2 ⟨p, hp, rfl⟩, by simpa using hp0⟩
    exact List.ne_nil_of_mem hmem

/-! ## Claim theorems -/

/-- C1 (counterexample): with the layer table containing "STORM_DRAIN_SS",
the entity on that layer is classified "sewer", not "storm": the keyword
table's sewer entry comes first and its "ss" keyword matches. -/
theorem storm_drain_ss_classified_sewer_cex :
    (classify_entities [entSD] [laySD]).map (fun e => e.suggested_type)
        = [some "sewer"] ∧
      some "sewer" ≠ some "storm" := by
  constructor
  · decide
  · decide

/-- C1 (amended): classification resolves keyword ties by the fixed table
order, in which sewer's entry precedes storm's; every entity on a layer
named "STORM_DRAIN_SS" that appears in the layer table receives
suggested_type "sewer". -/
theorem storm_drain_ss_classified_sewer (layers : List LayerRec)
    (es : List ExtractedEntity) (h : ∃ l ∈ layers, l.name = "STORM_DRAIN_SS") :
    ∀ e ∈ classify_entities es layers,
      e.layer = "STORM_DRAIN_SS" → e.suggested_type = some "sewer" := by
  have hc : classifyLayer "STORM_DRAIN_SS" = some "sewer" := by decide
  have hl := dictLookup_layer_types h hc
  intro e he hlay
  unfold classify_entities at he
  rw [List.mem_map] at he
  obtain ⟨e0, he0, hmap⟩ := he
  revert hmap
  cases hdl : dictLookup (layer_types layers) e0.layer with
  | none =>
      intro hmap
      subst hmap
      rw [hlay] at hdl
      rw [hl] at hdl
      cases hdl
  | some t =>
      intro hmap
      subst hmap
      simp only at hlay
      rw [hlay] at hdl
      rw [hl] at hdl
      injection hdl with hdl
      simp [hdl]

/-- C1 (witness): a concrete run of the amended statement. -/
theorem storm_drain_ss_classified_sewer_witness :
    (∃ l ∈ [laySD], l.name = "STORM_DRAIN_SS") ∧
      ∀ e ∈ classify_entities [entSD] [laySD],
        e.layer = "STORM_DRAIN_SS" → e.suggested_type = some "sewer" :=
  ⟨⟨laySD, by decide, by decide⟩,
    storm_drain_ss_classified_sewer [laySD] [entSD] ⟨laySD, by decide, by decide⟩⟩

/-- C2 (code bug): `parse` computes `missing_fields` before
`_classify_entities` runs, so "labels" is reported missing on every parse —
even when classification then assigns a suggested type to every entity, as
on the concrete sewer-layer drawing. -/
theorem labels_always_missing_bug :
    (∀ (layers : List LayerRec) (raws : List RawEntity) (crs rot : Bool),
        "labels" ∈ (parseCore layers raws crs rot).1) ∧
      (parseCore demoLayers demoRaws true true).2.map (fun e => e.suggested_type)
        = [some "sewer"] := by
  constructor
  · intro layers raws crs rot
    have hany : (extract_entities raws).any (fun e => e.suggested_type.isSome) = false := by
      rw [List.any_eq_false]
      intro e he
      obtain ⟨r, -, hr⟩ := List.mem_filterMap.1 he
      rw [extract_single_entity_suggested_none hr]
      simp
    simp [parseCore, determine_missing_fields, hany]
  · decide

/-- C4: the drawing-level depth flag is true iff some extracted point has
|z| > 0.001, and a drawing whose only non-zero z is exactly 0.001 has it
false. -/
theorem drawing_has_depth_iff :
    (∀ raws : List RawEntity,
        check_depth (extract_entities raws) = true ↔
          ∃ e ∈ extract_entities raws, ∃ p ∈ e.points, |p.2.2| > 1/1000) ∧
      check_depth (extract_entities [rawBoundary]) = false := by
  constructor
  · intro raws
    unfold check_depth
    rw [List.any_eq_true]
    constructor
    · rintro ⟨e, he, hbe⟩
      obtain ⟨r, -, hr⟩ := List.mem_filterMap.1 he
      exact ⟨e, he, (extracted_depth_cond hr).1 hbe⟩
    · rintro ⟨e, he, p, hp, hgt⟩
      obtain ⟨r, -, hr⟩ := List.mem_filterMap.1 he
      exact ⟨e, he, (extracted_depth_cond hr).2 ⟨p, hp, hgt⟩⟩
  · with_unfolding_all decide

/-- C5 (counterexample): an entity whose z values all satisfy
0 < |z| ≤ 0.001 still has the per-entity `has_depth` flag set — the
per-entity flag uses exact non-zero comparison, not the 0.001 epsilon. -/
theorem entity_has_depth_epsilon_cex :
    ((extract_single_entity rawEps).map fun e =>
        (e.has_depth,
         e.points.all fun p => decide (0 < |p.2.2| ∧ |p.2.2| ≤ 1/1000)))
      = some (true, true) := by
  with_unfolding_all decide

/-- C5 (amended): the per-entity `has_depth` field is true iff some point of
the entity has z ≠ 0 (exact comparison, no epsilon). -/
theorem entity_has_depth_iff_nonzero_z (r : RawEntity) (e : ExtractedEntity)
    (h : extract_single_entity r = some e) :
    e.has_depth = true ↔ ∃ p ∈ e.points, p.2.2 ≠ 0 :=
  extracted_has_depth_eq h

/-- A successful `round_coord` always yields a 3-component coordinate. -/
theorem round_coord_shape {p : Nat} {c c' : List ℚ}
    (h : round_coord p c = some c') : ∃ u v w, c' = [u, v, w] := by
  rcases c with _ | ⟨x, _ | ⟨y, rest⟩⟩
  · cases h
  · cases h
  · injection h with h
    exact ⟨_, _, _, h.symm⟩

/-- Every output coordinate of `roundAll` comes from rounding some input
coordinate. -/
theorem roundAll_mem {p : Nat} : ∀ {l l' : List (List ℚ)},
    roundAll p l = some l' → ∀ c' ∈ l', ∃ c ∈ l, round_coord p c = some c' := by
  intro l
  induction l with
  | nil =>
      intro l' h c' hc'
      injection h with h
      subst h
      cases hc'
  | cons c cs ih =>
      intro l' h c' hc'
      unfold roundAll at h
      revert h
      cases h1 : round_coord p c with
      | none => intro h; cases h
      | some d =>
          cases h2 : roundAll p cs with
          | none => intro h; cases h
          | some ds =>
              intro h
              injection h with h
              subst h
              rcases List.mem_cons.1 hc' with rfl | hmem
              · exact ⟨c, List.mem_cons_self c cs, h1⟩
              · obtain ⟨c0, hc0, hr0⟩ := ih h2 c' hmem
                exact ⟨c0, List.mem_cons_of_mem c hc0, hr0⟩

/-- A produced feature's coordinates are exactly the rounding of the
(possibly transformed) extracted coordinates. -/
theorem asset_to_feature_coords {tr : Option (ℚ × ℚ → ℚ × ℚ)}
    {opts : ExportOptions} {a : Asset} {f : Feature}
    (h : asset_to_feature tr opts a = some f) :
    roundAll opts.precision (transformed_coords tr (extract_coordinates a))
      = some (featureCoords f) := by
  simp only [asset_to_feature] at h
  split at h
  · cases h
  · revert h
    cases hr : roundAll opts.precision (transformed_coords tr (extract_coordinates a)) with
    | none => intro h; cases h
    | some cs =>
        intro h
        injection h with h
        subst h
        rcases cs with _ | ⟨c, _ | ⟨c2, rest⟩⟩ <;> rfl

/-- Rounding zero yields zero. -/
theorem roundDec_zero (p : Nat) : roundDec p 0 = 0 := by
  have h0 : roundHalfEven 0 = 0 := by
    unfold roundHalfEven
    norm_num
  unfold roundDec
  rw [zero_mul, h0]
  norm_num

/-- C5 (witness): the amended statement on a concrete deep entity. -/
theorem entity_has_depth_iff_nonzero_z_witness :
    extract_single_entity rawDeep
        = some { handle := "hd", entity_type := "LINE", layer := "L",
                 points := [(0, 0, 2), (1, 0, 0)],
                 has_depth := true, depth_values := [2] } ∧
      ({ handle := "hd", entity_type := "LINE", layer := "L",
         points := [(0, 0, 2), (1, 0, 0)],
         has_depth := true, depth_values := [2] : ExtractedEntity }.has_depth = true ↔
        ∃ p ∈ [((0 : ℚ), (0 : ℚ), (2 : ℚ)), (1, 0, 0)], p.2.2 ≠ 0) :=
  ⟨by decide, entity_has_depth_iff_nonzero_z rawDeep _ (by decide)⟩

/-- C6: with equal source and target CRS no transformer is constructed (the
transform is the identity, no library call), and the emitted feature's
coordinates are exactly the input coordinates rounded to `precision`
decimal places. -/
theorem identity_crs_roundtrip (opts : ExportOptions)
    (lib : String → String → ℚ × ℚ → ℚ × ℚ) (a : Asset)
    (hcrs : opts.source_crs = opts.target_crs)
    (hne : (extract_coordinates a).isEmpty = false) :
    init_transformer opts lib = none ∧
      (asset_to_feature (init_transformer opts lib) opts a).map featureCoords
        = roundAll opts.precision (extract_coordinates a) := by
  have htr : init_transformer opts lib = none := by
    unfold init_transformer
    rw [if_neg]
    simp [hcrs]
  refine ⟨htr, ?_⟩
  rw [htr]
  simp only [asset_to_feature, hne, Bool.false_eq_true, if_false]
  have hid : transformed_coords none (extract_coordinates a) = extract_coordinates a := rfl
  rw [hid]
  cases hr : roundAll opts.precision (extract_coordinates a) with
  | none => rfl
  | some cs =>
      rcases cs with _ | ⟨c, _ | ⟨c2, rest⟩⟩ <;> rfl

/-- C6 (witness): a concrete identity-CRS export run. -/
theorem identity_crs_roundtrip_witness :
    ({} : ExportOptions).source_crs = ({} : ExportOptions).target_crs ∧
      (extract_coordinates aC6).isEmpty = false ∧
      (asset_to_feature (init_transformer {} libW) {} aC6).map featureCoords
        = roundAll ({} : ExportOptions).precision (extract_coordinates aC6) :=
  ⟨rfl, by decide, (identity_crs_roundtrip {} libW aC6 rfl (by decide)).2⟩

/-- C9 (counterexample): an asset whose depth_start and diameter are present
with value 0.0 is exported with the fallbacks — the feature adapter writes
default_depth (1.5), not 0.0, and the tabular adapter writes the empty
string for diameter, not 0 — because Python's `or` treats 0.0 as absent. -/
theorem zero_numeric_attribute_cex :
    ((asset_to_feature none ({} : ExportOptions) a9).map fun f =>
        f.properties.depth_start) = some (some (3/2)) ∧
      ((csv_row a9).map fun row => row.getD 10 (.num 99)) = some (Cell.str "") ∧
      (3/2 : ℚ) ≠ 0 := by
  refine ⟨?_, ?_, ?_⟩ <;> with_unfolding_all decide

/-- C9 (amended): a numeric attribute stored as 0.0 is indistinguishable
from an absent one: the feature adapter falls back to default_depth for a
zero depth_start, and the tabular adapter writes the empty string for a
zero diameter. -/
theorem zero_numeric_attribute_fallback (opts : ExportOptions) (a b : Asset)
    (hd : opts.include_depth = true) (ha : a.depth_start = some 0)
    (hb : b.diameter = some 0) :
    (feature_properties opts a).depth_start = some opts.default_depth ∧
      ∀ row ∈ csv_row b, row.getD 10 (.num 99) = Cell.str "" := by
  constructor
  · simp [feature_properties, hd, ha, pyOr]
  · intro row hrow
    rw [Option.mem_def] at hrow
    by_cases hce : (extract_coordinates b).isEmpty = true
    · rw [csv_row] at hrow
      simp [hce] at hrow
    · simp only [csv_row, hce, Bool.false_eq_true, if_false, Option.some.injEq] at hrow
      subst hrow
      simp [List.getD, hb]

/-- C9 (witness): the amended statement on the zero-attribute asset. -/
theorem zero_numeric_attribute_fallback_witness :
    ({} : ExportOptions).include_depth = true ∧
      a9.depth_start = some 0 ∧ a9.diameter = some 0 ∧
      ((feature_properties {} a9).depth_start = some ({} : ExportOptions).default_depth ∧
        ∀ row ∈ csv_row a9, row.getD 10 (.num 99) = Cell.str "") :=
  ⟨rfl, by decide, by decide,
    zero_numeric_attribute_fallback {} a9 a9 rfl (by decide) (by decide)⟩

/-- C10: every coordinate of an emitted feature has exactly 3 components,
and a 2-component input coordinate comes out as `[x', y', 0]` after
transform and rounding. -/
theorem feature_coords_three_components (tr : Option (ℚ × ℚ → ℚ × ℚ))
    (opts : ExportOptions) (a : Asset) (f : Feature)
    (h : asset_to_feature tr opts a = some f) :
    (∀ c ∈ featureCoords f, c.length = 3) ∧
      ∀ x y : ℚ, ∃ u v : ℚ, processCoord tr opts.precision [x, y] = some [u, v, 0] := by
  constructor
  · intro c hc
    obtain ⟨c0, -, hrc⟩ := roundAll_mem (asset_to_feature_coords h) c hc
    obtain ⟨u, v, w, rfl⟩ := round_coord_shape hrc
    rfl
  · intro x y
    cases tr with
    | none =>
        exact ⟨roundDec opts.precision x, roundDec opts.precision y, rfl⟩
    | some t =>
        refine ⟨roundDec opts.precision (t (x, y)).1,
                roundDec opts.precision (t (x, y)).2, ?_⟩
        show round_coord opts.precision (transform_coord t [x, y]) = _
        unfold transform_coord round_coord
        simp [roundDec_zero]

/-- C10 (witness): the statement on a concrete single-coordinate asset. -/
theorem feature_coords_three_components_witness :
    asset_to_feature none ({} : ExportOptions) a10 = some f10 ∧
      ((∀ c ∈ featureCoords f10, c.length = 3) ∧
        ∀ x y : ℚ, ∃ u v : ℚ,
          processCoord none ({} : ExportOptions).precision [x, y] = some [u, v, 0]) := by
  have hW : asset_to_feature none ({} : ExportOptions) a10 = some f10 := by
    with_unfolding_all decide
  exact ⟨hW, feature_coords_three_components none {} a10 f10 hW⟩

/-- A non-degenerate segment yields the upright cylinder of the segment's
length, rotated by `cylRotation` and moved to the midpoint. -/
theorem create_cylinder_eq (s e : V3) (radius : ℝ) (sections : ℕ)
    (hlen : ¬ norm3 (vsub e s) < 1/1000) :
    create_cylinder s e radius sections
      = some { radius := radius, height := norm3 (vsub e s),
               sections := sections, rotation := cylRotation s e,
               midpoint := smul (1/2) (vadd s e) } := by
  simp only [create_cylinder, cylRotation]
  rw [if_neg hlen]

/-- When the normalized direction is within the 0.001 cross-product
tolerance of the z axis, no rotation is applied. -/
theorem cylRotation_none (s e : V3)
    (hpar : norm3 (cross3 (0, 0, 1) (smul (1 / norm3 (vsub e s)) (vsub e s))) ≤ 1/1000) :
    cylRotation s e = none := by
  simp only [cylRotation]
  rw [if_neg (not_lt.2 hpar)]

/-- Evaluation of `_asset_to_mesh` on a 2-point asset with well-formed
endpoints and a non-degenerate segment. -/
theorem asset_to_mesh_two_point (sections : ℕ) (opts : ExportOptions)
    (a : Asset) (c1 c2 : List ℚ) (s e : V3)
    (hc : extract_coordinates a = [c1, c2])
    (hs : seg_point (pyOr a.depth_start opts.default_depth) c1 = some s)
    (he : seg_point (pyOr a.depth_end opts.default_depth) c2 = some e)
    (hlen : ¬ norm3 (vsub e s) < 1/1000) :
    asset_to_mesh sections opts a
      = some [setColor (hex_to_rgba (pyOrStr a.color (assetColor a.asset_type)))
                { radius := ((pyOr a.diameter opts.default_diameter : ℚ) : ℝ) / 2,
                  height := norm3 (vsub e s), sections := sections,
                  rotation := cylRotation s e,
                  midpoint := smul (1/2) (vadd s e) }] := by
  simp only [asset_to_mesh, hc]
  rw [if_neg (by norm_num)]
  have hpair : consecPairs [c1, c2] = [(c1, c2)] := rfl
  rw [hpair]
  simp only [build_segments, seg_cylinder, hs, he,
    create_cylinder_eq s e _ sections hlen, Option.map_some]
  rfl

/-- C7: a 2-point, 10-unit segment with diameter 0.3 produces exactly one
cylinder of radius 0.15 and height 10, with no rotation applied when the
direction is parallel to the reference axis (cross-product norm ≤ 0.001). -/
theorem solid_generation_cylinder (opts : ExportOptions) (a : Asset)
    (c1 c2 : List ℚ) (s e : V3)
    (hc : extract_coordinates a = [c1, c2])
    (hs : seg_point (pyOr a.depth_start opts.default_depth) c1 = some s)
    (he : seg_point (pyOr a.depth_end opts.default_depth) c2 = some e)
    (hlen : norm3 (vsub e s) = 10)
    (hdiam : pyOr a.diameter opts.default_diameter = 3/10)
    (hpar : norm3 (cross3 (0, 0, 1) (smul (1/10) (vsub e s))) ≤ 1/1000) :
    ∃ cyl : CylinderDesc,
      asset_to_mesh 8 opts a = some [cyl] ∧
        cyl.radius = 3/20 ∧ cyl.height = 10 ∧ cyl.rotation = none := by
  have hnl : ¬ norm3 (vsub e s) < 1/1000 := by
    rw [hlen]
    norm_num
  have hrot : cylRotation s e = none := by
    apply cylRotation_none
    rw [hlen]
    exact hpar
  refine ⟨_, asset_to_mesh_two_point 8 opts a c1 c2 s e hc hs he hnl, ?_, ?_, ?_⟩
  · show ((pyOr a.diameter opts.default_diameter : ℚ) : ℝ) / 2 = 3/20
    rw [hdiam]
    push_cast
    norm_num
  · show norm3 (vsub e s) = 10
    exact hlen
  · show cylRotation s e = none
    exact hrot

/-- The z casts of a concrete all-zero endpoint. -/
theorem seg_point_zero (d : ℚ) :
    seg_point d [0, 0, 0] = some ((0 : ℝ), (0 : ℝ), (0 : ℝ)) := by
  simp [seg_point]

/-- The casts of the concrete (0, 0, 10) endpoint. -/
theorem seg_point_ten (d : ℚ) :
    seg_point d [0, 0, 10] = some ((0 : ℝ), (0 : ℝ), (10 : ℝ)) := by
  simp [seg_point]

/-- Norm of the vertical segment direction. -/
theorem norm3_vertical_ten :
    norm3 (vsub ((0 : ℝ), (0 : ℝ), (10 : ℝ)) ((0 : ℝ), (0 : ℝ), (0 : ℝ))) = 10 := by
  have h : dot3 (vsub ((0 : ℝ), (0 : ℝ), (10 : ℝ)) ((0 : ℝ), (0 : ℝ), (0 : ℝ)))
      (vsub ((0 : ℝ), (0 : ℝ), (10 : ℝ)) ((0 : ℝ), (0 : ℝ), (0 : ℝ))) = 10 ^ 2 := by
    simp [vsub, dot3]
    norm_num
  unfold norm3
  rw [h, Real.sqrt_sq]
  norm_num

/-- C7 (witness): the vertical 10-unit, diameter-0.3 asset. -/
theorem solid_generation_cylinder_witness :
    extract_coordinates aC7 = [[0, 0, 0], [0, 0, 10]] ∧
      pyOr aC7.diameter ({} : ExportOptions).default_diameter = 3/10 ∧
      norm3 (vsub ((0 : ℝ), (0 : ℝ), (10 : ℝ)) ((0 : ℝ), (0 : ℝ), (0 : ℝ))) = 10 ∧
      norm3 (cross3 ((0 : ℝ), (0 : ℝ), (1 : ℝ))
          (smul (1/10) (vsub ((0 : ℝ), (0 : ℝ), (10 : ℝ)) ((0 : ℝ), (0 : ℝ), (0 : ℝ))))) ≤ 1/1000 ∧
      ∃ cyl : CylinderDesc,
        asset_to_mesh 8 ({} : ExportOptions) aC7 = some [cyl] ∧
          cyl.radius = 3/20 ∧ cyl.height = 10 ∧ cyl.rotation = none := by
  have hc : extract_coordinates aC7 = [[0, 0, 0], [0, 0, 10]] := by decide
  have hd : pyOr aC7.diameter ({} : ExportOptions).default_diameter = 3/10 := by
    with_unfolding_all decide
  have hpar : norm3 (cross3 ((0 : ℝ), (0 : ℝ), (1 : ℝ))
      (smul (1/10) (vsub ((0 : ℝ), (0 : ℝ), (10 : ℝ)) ((0 : ℝ), (0 : ℝ), (0 : ℝ))))) ≤ 1/1000 := by
    have hz : cross3 ((0 : ℝ), (0 : ℝ), (1 : ℝ))
        (smul (1/10) (vsub ((0 : ℝ), (0 : ℝ), (10 : ℝ)) ((0 : ℝ), (0 : ℝ), (0 : ℝ))))
          = ((0 : ℝ), (0 : ℝ), (0 : ℝ)) := by
      simp [cross3, smul, vsub]
    rw [hz]
    have h0 : norm3 ((0 : ℝ), (0 : ℝ), (0 : ℝ)) = 0 := by
      unfold norm3
      simp [dot3]
    rw [h0]
    norm_num
  exact ⟨hc, hd, norm3_vertical_ten, hpar,
    solid_generation_cylinder {} aC7 [0, 0, 0] [0, 0, 10] _ _ hc
      (seg_point_zero _) (seg_point_ten _) norm3_vertical_ten hd hpar⟩

/-- A successful `_asset_to_mesh` result is never an empty segment list. -/
theorem asset_to_mesh_some_ne_nil {sections : ℕ} {opts : ExportOptions}
    {a : Asset} {segs : List CylinderDesc}
    (h : asset_to_mesh sections opts a = some segs) : segs ≠ [] := by
  simp only [asset_to_mesh] at h
  split at h
  · cases h
  · split at h
    · cases h
    · split at h
      · cases h
      · next hne =>
          injection h with h
          subst h
          simpa using hne

/-- A segment loop in which every iteration skips or raises builds either
nothing or an empty list. -/
theorem build_segments_skip {α : Type} {f : α → Option (Option CylinderDesc)} :
    ∀ l : List α, (∀ x ∈ l, f x = none ∨ f x = some none) →
      build_segments f l = none ∨ build_segments f l = some [] := by
  intro l
  induction l with
  | nil => intro h; right; rfl
  | cons x xs ih =>
      intro h
      rcases h x (List.mem_cons_self x xs) with hx | hx
      · left
        unfold build_segments
        rw [hx]
      · unfold build_segments
        rw [hx]
        exact ih fun y hy => h y (List.mem_cons_of_mem x hy)

/-- An asset all of whose consecutive segments are degenerate (shorter than
0.001) contributes no mesh. -/
theorem asset_to_mesh_degenerate (sections : ℕ) (opts : ExportOptions) (a : Asset)
    (h : ∀ pr ∈ consecPairs (extract_coordinates a), ∀ s e : V3,
        seg_point (pyOr a.depth_start opts.default_depth) pr.1 = some s →
        seg_point (pyOr a.depth_end opts.default_depth) pr.2 = some e →
        norm3 (vsub e s) < 1/1000) :
    asset_to_mesh sections opts a = none := by
  simp only [asset_to_mesh]
  split
  · rfl
  · have hall : ∀ pr ∈ consecPairs (extract_coordinates a),
        (Option.map (Option.map
            (setColor (hex_to_rgba (pyOrStr a.color (assetColor a.asset_type)))))
          (seg_cylinder opts a
            (((pyOr a.diameter opts.default_diameter : ℚ) : ℝ) / 2) sections pr)) = none ∨
        (Option.map (Option.map
            (setColor (hex_to_rgba (pyOrStr a.color (assetColor a.asset_type)))))
          (seg_cylinder opts a
            (((pyOr a.diameter opts.default_diameter : ℚ) : ℝ) / 2) sections pr)) = some none := by
      intro pr hpr
      cases h1 : seg_point (pyOr a.depth_start opts.default_depth) pr.1 with
      | none => left; simp [seg_cylinder, h1]
      | some s =>
          cases h2 : seg_point (pyOr a.depth_end opts.default_depth) pr.2 with
          | none => left; simp [seg_cylinder, h1, h2]
          | some e =>
              right
              have hlt := h pr hpr s e h1 h2
              simp only [seg_cylinder, h1, h2, create_cylinder]
              rw [if_pos hlt]
              rfl
    rcases build_segments_skip _ hall with hb | hb
    · rw [hb]
    · rw [hb]
      rfl

/-- C8: the direct mesh adapter fails exactly when zero solids were
generated from the whole asset set; in particular it fails when every
consecutive point pair is degenerate (skipped without error), and success
implies at least one solid was written. -/
theorem mesh_export_failure_iff :
    (∀ (opts : ExportOptions) (assets : List Asset),
        gltf_export opts assets = true ↔ gltf_solids opts assets ≠ []) ∧
      ∀ (opts : ExportOptions) (assets : List Asset),
        (∀ a ∈ assets, ∀ pr ∈ consecPairs (extract_coordinates a), ∀ s e : V3,
            seg_point (pyOr a.depth_start opts.default_depth) pr.1 = some s →
            seg_point (pyOr a.depth_end opts.default_depth) pr.2 = some e →
            norm3 (vsub e s) < 1/1000) →
          gltf_export opts assets = false := by
  constructor
  · intro opts assets
    unfold gltf_export gltf_solids
    simp only [Bool.not_eq_true', List.isEmpty_eq_false]
    constructor
    · intro hne
      obtain ⟨m, hm⟩ := List.exists_mem_of_ne_nil _ hne
      obtain ⟨a, -, ha⟩ := List.mem_filterMap.1 hm
      obtain ⟨c, hc⟩ := List.exists_mem_of_ne_nil _ (asset_to_mesh_some_ne_nil ha)
      exact List.ne_nil_of_mem (List.mem_flatten.2 ⟨m, hm, hc⟩)
    · intro hfl
      intro hnil
      apply hfl
      unfold gltf_meshes at hnil
      simp [gltf_meshes, hnil]
  · intro opts assets hdeg
    have hnil : gltf_meshes opts assets = [] := by
      unfold gltf_meshes
      rw [List.filterMap_eq_nil_iff]
      intro a ha
      exact asset_to_mesh_degenerate 8 opts a (hdeg a ha)
    simp [gltf_export, hnil]

/-- C8 (witness): the single-asset set whose only segment is degenerate. -/
theorem mesh_export_failure_iff_witness :
    (∀ a ∈ [aDeg], ∀ pr ∈ consecPairs (extract_coordinates a), ∀ s e : V3,
        seg_point (pyOr a.depth_start ({} : ExportOptions).default_depth) pr.1 = some s →
        seg_point (pyOr a.depth_end ({} : ExportOptions).default_depth) pr.2 = some e →
        norm3 (vsub e s) < 1/1000) ∧
      gltf_export {} [aDeg] = false := by
  have hdeg : ∀ a ∈ [aDeg], ∀ pr ∈ consecPairs (extract_coordinates a), ∀ s e : V3,
      seg_point (pyOr a.depth_start ({} : ExportOptions).default_depth) pr.1 = some s →
      seg_point (pyOr a.depth_end ({} : ExportOptions).default_depth) pr.2 = some e →
      norm3 (vsub e s) < 1/1000 := by
    intro a ha pr hpr s e hs he
    have ha' : a = aDeg := by simpa using ha
    subst ha'
    have hpr' : pr = ([0, 0, 0], [0, 0, 0]) := by
      have hcp : consecPairs (extract_coordinates aDeg) = [([0, 0, 0], [0, 0, 0])] := rfl
      rw [hcp] at hpr
      simpa using hpr
    subst hpr'
    rw [seg_point_zero] at hs he
    injection hs with hs
    injection he with he
    subst hs
    subst he
    have h0 : norm3 (vsub ((0 : ℝ), (0 : ℝ), (0 : ℝ)) ((0 : ℝ), (0 : ℝ), (0 : ℝ))) = 0 := by
      unfold norm3
      simp [vsub, dot3]
    rw [h0]
    norm_num
  exact ⟨hdeg, mesh_export_failure_iff.2 {} [aDeg] hdeg⟩

/-- C3 (counterexample): with Blender present, a subprocess timeout and a
nonzero exit both make the export return failure directly — the direct
trimesh fallback is never invoked and no degraded file is written, contrary
to the claimed fallback chain. -/
theorem fbx_timeout_no_fallback_cex :
    fbx_export envTimeout ({} : ExportOptions) [aC7]
        = { success := false, used_direct_fallback := false, wrote_obj := false } ∧
      fbx_export envNonzero ({} : ExportOptions) [aC7]
        = { success := false, used_direct_fallback := false, wrote_obj := false } := by
  constructor <;> with_unfolding_all decide

/-- C3 (amended): only tool-not-found routes to the direct mesh adapter; on
subprocess timeout or nonzero exit the export fails without any fallback.
When the tool is missing, the direct adapter runs, and if its meshes exist
but its FBX write fails, an OBJ interchange file is written under the
alternate extension and success is reported. -/
theorem fbx_fallback_policy (env : FbxEnv) (opts : ExportOptions)
    (assets : List Asset) :
    (env.blender_found = true → env.blender_outcome ≠ .ok →
        fbx_export env opts assets
          = { success := false, used_direct_fallback := false, wrote_obj := false }) ∧
      (env.blender_found = false →
        (fbx_export env opts assets).used_direct_fallback = true ∧
          ((assets.filterMap (asset_to_mesh 12 opts)).isEmpty = false →
            env.fbx_write_ok = false →
            fbx_export env opts assets
              = { success := true, used_direct_fallback := true, wrote_obj := true })) := by
  constructor
  · intro hf hnok
    cases ho : env.blender_outcome with
    | ok => exact absurd ho hnok
    | timeout =>
        simp only [fbx_export, hf, if_true, export_with_blender, ho]
        split <;> rfl
    | nonzeroExit =>
        simp only [fbx_export, hf, if_true, export_with_blender, ho]
        split <;> rfl
  · intro hf
    have hfe : fbx_export env opts assets = export_fallback env opts assets := by
      simp [fbx_export, hf]
    rw [hfe]
    constructor
    · simp only [export_fallback]
      split
      · rfl
      · split <;> rfl
    · intro hm hw
      simp only [export_fallback, hm, hw, Bool.false_eq_true, if_false]

/-- C3 (witness): tool-not-found with meshes available and the FBX writer
failing: the direct fallback runs and OBJ is written with success. -/
theorem fbx_fallback_policy_witness :
    envNoTool.blender_found = false ∧
      ([aC7].filterMap (asset_to_mesh 12 ({} : ExportOptions))).isEmpty = false ∧
      envNoTool.fbx_write_ok = false ∧
      ((fbx_export envNoTool {} [aC7]).used_direct_fallback = true ∧
        fbx_export envNoTool {} [aC7]
          = { success := true, used_direct_fallback := true, wrote_obj := true }) := by
  have hc : extract_coordinates aC7 = [[0, 0, 0], [0, 0, 10]] := by decide
  have hnl : ¬ norm3 (vsub ((0 : ℝ), (0 : ℝ), (10 : ℝ)) ((0 : ℝ), (0 : ℝ), (0 : ℝ))) < 1/1000 := by
    rw [norm3_vertical_ten]
    norm_num
  have hmesh := asset_to_mesh_two_point 12 ({} : ExportOptions) aC7 [0, 0, 0] [0, 0, 10]
    ((0 : ℝ), (0 : ℝ), (0 : ℝ)) ((0 : ℝ), (0 : ℝ), (10 : ℝ)) hc
    (seg_point_zero _) (seg_point_ten _) hnl
  have hne : ([aC7].filterMap (asset_to_mesh 12 ({} : ExportOptions))).isEmpty = false := by
    simp [List.filterMap, hmesh]
  have h := (fbx_fallback_policy envNoTool {} [aC7]).2 rfl
  exact ⟨rfl, hne, rfl, h.1, h.2 hne rfl⟩

end PipeVision
